import Mathlib

/-!
Verification of the BeFriend conversation and call orchestration pipeline.

This development shallowly embeds the TypeScript source of the repository:
pure string manipulation becomes functions on `String` / `List Char`,
database-backed request handlers become explicit state-passing functions on a
`DB` record, and calls to external providers (Twilio, Whisper, TogetherAI,
ElevenLabs) become explicit `Except`-valued outcome parameters, since the
handlers' logic is a pure function of the provider outcome.  JavaScript
truthiness of optional string fields is modelled by `truthy`.
-/

/-- Decidable equality for `Except` results, so that theorems about the
fallible operations can be checked on concrete inputs. -/
instance {ε α : Type} [DecidableEq ε] [DecidableEq α] :
    DecidableEq (Except ε α) := fun a b =>
  match a, b with
  | .error e, .error f =>
    if h : e = f then isTrue (congrArg Except.error h)
    else isFalse (fun c => h (Except.error.inj c))
  | .ok x, .ok y =>
    if h : x = y then isTrue (congrArg Except.ok h)
    else isFalse (fun c => h (Except.ok.inj c))
  | .error _, .ok _ => isFalse (fun c => Except.noConfusion c)
  | .ok _, .error _ => isFalse (fun c => Except.noConfusion c)

/-- JS truthiness of an optional string field: `undefined` / `null` and the
empty string are falsy, every other string is truthy. -/
def truthy : Option String → Bool
  | none => false
  | some s => s ≠ ""

/-- Characters matched by the JS `\s` class / removed by `String.prototype.trim`
(restricted to the ASCII range, which is all the repository ever produces). -/
def isJsWhitespace (c : Char) : Bool :=
  c == ' ' || c == '\t' || c == '\n' || c == '\r' || c == '\x0b' || c == '\x0c'

/-- Model of JS `String.prototype.trim`: drop whitespace from both ends. -/
def trimChars (l : List Char) : List Char :=
  ((l.dropWhile isJsWhitespace).reverse.dropWhile isJsWhitespace).reverse

/-- Model of `cleaned.replace(/^Assistant:?\s*/i, '')` from
`togetherai.ts` (`cleanResponse`): if the text starts with the
case-insensitive label `assistant`, drop it, an optional following colon and
any following whitespace. -/
def stripAssistantLabel (l : List Char) : List Char :=
  if (l.take 9).map Char.toLower = "assistant".toList then
    let r := l.drop 9
    let r := match r with
      | ':' :: rest => rest
      | _ => r
    r.dropWhile isJsWhitespace
  else l

/-- Model of JS `String.prototype.indexOf`: the least index at which `m`
occurs in `l`, or `none` (JS `-1`) when it does not occur. -/
def firstOccurIdx (m : List Char) : List Char → Option Nat
  | [] => if m.isPrefixOf ([] : List Char) then some 0 else none
  | c :: l =>
    if m.isPrefixOf (c :: l) then some 0
    else (firstOccurIdx m l).map (· + 1)

/-- Whether `m` occurs as a contiguous segment of `l` (JS `indexOf !== -1`). -/
def hasOccur (m l : List Char) : Bool :=
  (firstOccurIdx m l).isSome

/-- One iteration of the stop-marker loop of `cleanResponse` in
`togetherai.ts`: `if (markerIndex !== -1) cleaned = cleaned.substring(0, markerIndex).trim()`. -/
def cutAtMarker (m l : List Char) : List Char :=
  match firstOccurIdx m l with
  | some i => trimChars (l.take i)
  | none => l

/-- The fixed stop markers of `cleanResponse` in `togetherai.ts`:
`['<end>', 'User:', 'Human:']`, applied in this order. -/
def endMarkers : List (List Char) :=
  ["<end>".toList, "User:".toList, "Human:".toList]

/-- Model of `TogetherAIService.cleanResponse` (`togetherai.ts` lines
208-225): trim, strip a leading `Assistant:` label, then truncate at each
stop marker in turn (re-trimming after each cut). -/
def cleanResponse (text : List Char) : List Char :=
  let cleaned := trimChars text
  let cleaned := stripAssistantLabel cleaned
  endMarkers.foldl (fun acc m => cutAtMarker m acc) cleaned

/-- A persisted `Message` row (prisma model), as used by the prompt
assembler: owning conversation, speaker role, text content and creation
timestamp (modelled as a `Nat`). -/
structure Message where
  conversationId : String
  role : String
  content : String
  createdAt : Nat
deriving DecidableEq

/-- The `MAX_MESSAGES_HISTORY` constant of `togetherai.ts`. -/
def MAX_MESSAGES_HISTORY : Nat := 10

/-- Ordering used to model prisma's `orderBy: { createdAt: 'desc' }`:
`a` comes no later than `b` in descending order iff `b.createdAt ≤ a.createdAt`. -/
def msgGE (a b : Message) : Prop := b.createdAt ≤ a.createdAt

instance : DecidableRel msgGE := fun a b => Nat.decLe b.createdAt a.createdAt

instance : IsTotal Message msgGE :=
  ⟨fun a b => Nat.le_total b.createdAt a.createdAt⟩

instance : IsTrans Message msgGE :=
  ⟨fun _ _ _ hab hbc => Nat.le_trans hbc hab⟩

/-- Model of `TogetherAIService.getConversationHistory` (`togetherai.ts`
lines 171-180): select the conversation's messages, order by `createdAt`
descending, take the first `MAX_MESSAGES_HISTORY`, then reverse into
chronological order.  `store` is the message table. -/
def getConversationHistory (store : List Message) (conversationId : String) :
    List Message :=
  (((List.insertionSort msgGE
      (store.filter (fun m => m.conversationId == conversationId))).take
        MAX_MESSAGES_HISTORY)).reverse

/-- One line of the rendered history block of `constructPrompt`:
`` `\n${role}: ${msg.content}` `` with role `User` for `user` rows and
`Assistant` otherwise. -/
def historyLine (msg : Message) : String :=
  (if msg.role == "user" then "\nUser: " else "\nAssistant: ") ++ msg.content

/-- The `historyText` local of `constructPrompt`: the rendered lines joined
with `'\n'`, or the empty string for an empty history. -/
def historyText (conversationHistory : List Message) : String :=
  if conversationHistory.length > 0 then
    String.intercalate "\n" (conversationHistory.map historyLine)
  else ""

/-- Model of `TogetherAIService.constructPrompt` (`togetherai.ts` lines
140-166).  `includePersonaContext` selects between the template-prefixed and
the bare variant of the prompt; the history block appears in both. -/
def constructPrompt (userInput personaTemplate : String)
    (conversationHistory : List Message) (includePersonaContext : Bool) :
    String :=
  let h := historyText conversationHistory
  if includePersonaContext then
    personaTemplate ++ "\n\nConversation history:" ++ h ++ "\n\nUser: " ++
      userInput ++ "\nAssistant:"
  else
    "Conversation history:" ++ h ++ "\n\nUser: " ++ userInput ++ "\nAssistant:"

/-- A `Persona` row, restricted to the fields the pipeline reads. -/
structure Persona where
  id : String
  promptTemplate : String
  voiceId : Option String
  memoryEnabled : Bool
  isPremium : Bool
deriving DecidableEq

/-- The prompt produced for one turn through the wiring of
`/api/ai/generate/route.ts` (lines 42-47) and
`TogetherAIService.generateResponse` (lines 82-92): history is fetched
whenever a non-empty `conversationId` is passed, and
`includePersonaContext` is the persona's `memoryEnabled` flag. -/
def generatePrompt (store : List Message) (persona : Persona)
    (conversationId : String) (userInput : String) : String :=
  let history :=
    if conversationId ≠ "" then getConversationHistory store conversationId
    else []
  constructPrompt userInput persona.promptTemplate history persona.memoryEnabled

/-- Model of JS `String.prototype.toLowerCase` (character-wise lowering, which
is all the handlers rely on). -/
def toLowerStr (s : String) : String :=
  ⟨s.data.map Char.toLower⟩

/-- A `CallLog` row, restricted to the fields the callback handlers touch. -/
structure CallLog where
  id : Nat
  userId : String
  conversationId : Option String
  twilioCallSid : String
  phoneNumber : String
  direction : String
  status : String
  endTime : Option Nat
  duration : Option Int
  errorMessage : Option String
deriving DecidableEq

/-- A `Conversation` row, restricted to the fields the pipeline touches. -/
structure Conversation where
  id : String
  userId : String
  personaId : String
  endedAt : Option Nat
deriving DecidableEq

/-- A `User` row, restricted to the fields the call-initiation route reads. -/
structure UserRec where
  id : String
  callCredits : Int
deriving DecidableEq

/-- The persistence store as seen by the orchestration pipeline. -/
structure DB where
  users : List UserRec
  conversations : List Conversation
  callLogs : List CallLog
deriving DecidableEq

/-- The terminal call statuses of the state machine in the specification. -/
def terminalStatuses : List String :=
  ["completed", "failed", "busy", "no_answer", "canceled"]

/-- Model of JS `parseInt` on the strings the status route feeds it: skip
leading whitespace, read an optional sign and then leading decimal digits;
`none` models `NaN` (no digits). -/
def parseIntJS (s : String) : Option Int :=
  let l := s.toList.dropWhile isJsWhitespace
  let (neg, l) : Bool × List Char :=
    match l with
    | '-' :: rest => (true, rest)
    | '+' :: rest => (false, rest)
    | _ => (false, l)
  let ds := l.takeWhile Char.isDigit
  if ds.isEmpty then none
  else
    let n : Nat := ds.foldl (fun acc c => acc * 10 + (c.toNat - '0'.toNat)) 0
    some (if neg then -(n : Int) else (n : Int))

/-- Prisma `conversation.update({ where: { id }, data: { endedAt } })`,
applied to the conversation table (the row is known to exist). -/
def setConversationEnded (convs : List Conversation) (cid : String)
    (now : Nat) : List Conversation :=
  convs.map (fun c => if c.id == cid then { c with endedAt := some now } else c)

/-- Responses of the status-callback route, abstracted to the cases the
route distinguishes: the `{ received: true }` acknowledgment and the 500
produced by the surrounding `catch`. -/
inductive StatusResp
  | received
  | serverError
deriving DecidableEq

/-- Model of `POST` in `src/app/api/whatsapp/call-status/route.ts`.

`now` models `new Date()`; `signatureValid` models the authenticity of the
request's `X-Twilio-Signature` header — the route never reads or validates
it, which the unused binder makes explicit.  The route looks up the CallLog
by `CallSid`, acknowledges unknown SIDs, and otherwise writes the lowercased
`CallStatus` unconditionally; only for the literal status `completed` does it
additionally parse `CallDuration`, stamp `endTime := now` and re-stamp the
owning conversation's `endedAt` (the conversation update precedes the
CallLog update in the source, so a dangling `conversationId` aborts before
the CallLog write; a `NaN` duration aborts at the CallLog write, after the
conversation write). -/
def statusRoutePOST (db : DB) (now : Nat) (_signatureValid : Bool)
    (callSid callStatus : String) (callDuration : Option String) :
    DB × StatusResp :=
  match db.callLogs.find? (fun cl => cl.twilioCallSid == callSid) with
  | none => (db, .received)
  | some cl =>
    if callStatus == "completed" then
      let durStr :=
        match callDuration with
        | some s => if s ≠ "" then s else "0"
        | none => "0"
      let duration? := parseIntJS durStr
      let step2 : DB → DB × StatusResp := fun db1 =>
        match duration? with
        | some d =>
          ({ db1 with
              callLogs := db1.callLogs.map (fun c =>
                if c.id == cl.id then
                  { c with status := toLowerStr callStatus, endTime := some now,
                           duration := some d }
                else c) }, .received)
        | none => (db1, .serverError)
      match cl.conversationId with
      | some cid =>
        if (db.conversations.find? (fun c => c.id == cid)).isSome then
          step2 { db with
                  conversations := setConversationEnded db.conversations cid now }
        else (db, .serverError)
      | none => step2 db
    else
      ({ db with
          callLogs := db.callLogs.map (fun c =>
            if c.id == cl.id then { c with status := toLowerStr callStatus }
            else c) }, .received)

/-- Failure cases of `twilioService.updateCallStatus`: no CallLog for the
SID, or the conversation update throwing on a dangling `conversationId`. -/
inductive UpdateErr
  | callLogNotFound
  | conversationNotFound
deriving DecidableEq

/-- Model of `twilioService.updateCallStatus` (`twilio.ts` lines 150-196).

Returns the store after the call together with the updated CallLog (or the
thrown error).  For `completed` / `failed` the update additionally stamps
`endTime := now` and records `duration` / `errorMessage` when they are
truthy (JS `if (duration)` treats `0` as absent, `if (errorMessage)` treats
`""` as absent); only for `completed` is the owning conversation's `endedAt`
stamped, after the CallLog write. -/
def updateCallStatus (db : DB) (now : Nat) (callSid : String)
    (status : String) (duration : Option Int) (errorMessage : Option String) :
    DB × Except UpdateErr CallLog :=
  match db.callLogs.find? (fun cl => cl.twilioCallSid == callSid) with
  | none => (db, .error .callLogNotFound)
  | some cl =>
    let newLog :=
      if status == "completed" || status == "failed" then
        { cl with
            status := status,
            endTime := some now,
            duration :=
              match duration with
              | some d => if d ≠ 0 then some d else cl.duration
              | none => cl.duration,
            errorMessage :=
              match errorMessage with
              | some m => if m ≠ "" then some m else cl.errorMessage
              | none => cl.errorMessage }
      else { cl with status := status }
    let logs := db.callLogs.map (fun c => if c.id == cl.id then newLog else c)
    if status == "completed" then
      match cl.conversationId with
      | some cid =>
        if (db.conversations.find? (fun c => c.id == cid)).isSome then
          ({ db with
              callLogs := logs,
              conversations := setConversationEnded db.conversations cid now },
           .ok newLog)
        else ({ db with callLogs := logs }, .error .conversationNotFound)
      | none => ({ db with callLogs := logs }, .ok newLog)
    else ({ db with callLogs := logs }, .ok newLog)

/-- The request body of the call-initiation route (`src/unnamed/part_003`):
`{ phoneNumber, personaId?, conversationId?, userId? }`. -/
structure InitiateRequest where
  phoneNumber : Option String
  personaId : Option String
  conversationId : Option String
  userId : Option String
deriving DecidableEq

/-- Responses of the call-initiation route, one per `return` site. -/
inductive InitiateResp
  | badRequest
  | userNotFound
  | insufficientCredits
  | serverError
  | success (sid : String)
deriving DecidableEq

/-- The `userId` resolution of the call-initiation route (lines 20-27):
the body's `userId` when truthy, else the session user when one exists. -/
def resolveUserId (session : Option String) (req : InitiateRequest) :
    Option String :=
  if truthy req.userId then req.userId
  else if truthy session then session
  else req.userId

/-- The phone-number normalization of the call-initiation route (lines
48-51): prepend `+` when it is missing (`phoneNumber.startsWith('+')`). -/
def normalizePhone (p : String) : String :=
  match p.data with
  | '+' :: _ => p
  | _ => "+" ++ p

/-- Model of `POST` in the call-initiation route (`src/unnamed/part_003`).

`session` is the NextAuth session user id (if any); `providerResult` is the
outcome of `twilioClient.calls.create` (the provider call SID on success);
`newConvId` is the id the store would assign to a conversation created by
this request; `newLogId` likewise for the CallLog row.  The route: validates
the phone number; resolves the user; when a user is resolved, rejects
unknown users (404) and exhausted credits (403) before any side effect;
creates a conversation when none was supplied (only with both a user and a
persona); places the provider call; and only after provider success — and
only when a user is resolved — persists an `initiated` CallLog and
decrements one credit. -/
def initiatePOST (db : DB) (session : Option String) (req : InitiateRequest)
    (providerResult : Except Unit String) (newConvId : String)
    (newLogId : Nat) : DB × InitiateResp :=
  if !truthy req.phoneNumber then (db, .badRequest)
  else
    let userId := resolveUserId session req
    let uid := userId.getD ""
    let creditCheck : Option InitiateResp :=
      if truthy userId then
        match db.users.find? (fun u => u.id == uid) with
        | none => some .userNotFound
        | some u => if u.callCredits ≤ 0 then some .insufficientCredits else none
      else none
    match creditCheck with
    | some r => (db, r)
    | none =>
      let normalized := normalizePhone ((req.phoneNumber).getD "")
      let (db1, convId) :=
        if !truthy req.conversationId && truthy userId && truthy req.personaId
        then
          ({ db with
              conversations := db.conversations ++
                [{ id := newConvId, userId := uid,
                   personaId := (req.personaId).getD "", endedAt := none }] },
           some newConvId)
        else (db, req.conversationId)
      match providerResult with
      | .error _ => (db1, .serverError)
      | .ok sid =>
        if truthy userId then
          ({ db1 with
              callLogs := db1.callLogs ++
                [{ id := newLogId, userId := uid, conversationId := convId,
                   twilioCallSid := sid, phoneNumber := normalized,
                   direction := "outbound", status := "initiated",
                   endTime := none, duration := none, errorMessage := none }],
              users := db1.users.map (fun u =>
                if u.id == uid then { u with callCredits := u.callCredits - 1 }
                else u) },
           .success sid)
        else (db1, .success sid)

/-- A `VoiceProfile` row, restricted to the fields voice resolution reads. -/
structure VoiceProfile where
  id : String
  providerVoiceId : String
  isDefault : Bool
  isPremium : Bool
deriving DecidableEq

/-- Failure cases of the voice-resolution segment of the TTS route:
the 400 `No voice specified and no default voice found` and the 404
`Voice profile not found`. -/
inductive VoiceErr
  | noVoiceAvailable
  | voiceNotFound
deriving DecidableEq

/-- Model of the voice-resolution segment of the TTS route
(`src/unnamed/part_002` lines 73-118), over the `VoiceProfile` table.

`finalVoiceId` starts as the request's `voiceId`; falls back to the
persona's linked voice, then to the user's `preferredVoiceId`, then to the
store's default voice; with no candidate at all the route returns the
no-voice 400.  The selected id is then looked up in the store and an
unknown id is a 404 — it does NOT fall through to the next candidate. -/
def resolveVoice (store : List VoiceProfile)
    (explicitVoiceId personaVoiceId preferredVoiceId : Option String) :
    Except VoiceErr VoiceProfile :=
  let v1 := explicitVoiceId
  let v2 := if !truthy v1 && truthy personaVoiceId then personaVoiceId else v1
  let v3 := if !truthy v2 && truthy preferredVoiceId then preferredVoiceId else v2
  if truthy v3 then
    match store.find? (fun v => v.id == v3.getD "") with
    | some vp => .ok vp
    | none => .error .voiceNotFound
  else
    match store.find? (fun v => v.isDefault) with
    | some d =>
      match store.find? (fun v => v.id == d.id) with
      | some vp => .ok vp
      | none => .error .voiceNotFound
    | none => .error .noVoiceAvailable

/-- Restatement of the resolution chain in first-match-wins form (the
corrected reading of the specification's §4.1): the first truthy candidate
among explicit / persona / preference is looked up — a missing id is a 404,
not a fall-through — and with no truthy candidate the store's default voice
is used, failing with the no-voice error when there is none. -/
def resolveVoiceSpec (store : List VoiceProfile)
    (explicitVoiceId personaVoiceId preferredVoiceId : Option String) :
    Except VoiceErr VoiceProfile :=
  let chosen :=
    if truthy explicitVoiceId then explicitVoiceId
    else if truthy personaVoiceId then personaVoiceId
    else if truthy preferredVoiceId then preferredVoiceId
    else none
  match chosen with
  | some s =>
    (match store.find? (fun v => v.id == s) with
     | some vp => .ok vp
     | none => .error .voiceNotFound)
  | none =>
    match store.find? (fun v => v.isDefault) with
    | some d =>
      (match store.find? (fun v => v.id == d.id) with
       | some vp => .ok vp
       | none => .error .voiceNotFound)
    | none => .error .noVoiceAvailable

/-- A thrown JS error as observed by the whisper service's `catch` blocks:
`message` is the error's own message (always present on a JS `Error`);
`providerMessage` is the optional nested `error?.response?.data?.error?.message`
of an axios failure with a parseable provider payload. -/
structure JsError where
  message : String
  providerMessage : Option String
deriving DecidableEq

/-- A successful Whisper transcription payload (`response.data`). -/
structure WhisperOk where
  text : String
  language : Option String
deriving DecidableEq

/-- The `TranscriptionResponse` shape of `src/unnamed/part_001`. -/
structure TranscriptionResponse where
  text : String
  language : Option String
  error : Option String
deriving DecidableEq

/-- Model of `whisperService.transcribeAudio` (`src/unnamed/part_001` lines
47-101).  The whole body is wrapped in a catch-all, so the function is total
in the outcome of the provider request: success returns the payload with no
`error` field; any failure returns empty text and an error message, taken
from the nested provider payload when that is truthy (JS `||` skips an
empty nested message) and from the error's own message otherwise. -/
def transcribeAudio (outcome : Except JsError WhisperOk) :
    TranscriptionResponse :=
  match outcome with
  | .ok r => { text := r.text, language := r.language, error := none }
  | .error e =>
    { text := "", language := none,
      error := some (match e.providerMessage with
        | some m => if m ≠ "" then m else e.message
        | none => e.message) }

/-- Model of `whisperService.transcribeAudioUrl` (`src/unnamed/part_001`
lines 143-170): a failing download is caught and reported as
`{ text: '', error: error.message }`; a successful download delegates to
`transcribeAudio`. -/
def transcribeAudioUrl (download : Except JsError Unit)
    (outcome : Except JsError WhisperOk) : TranscriptionResponse :=
  match download with
  | .error e => { text := "", language := none, error := some e.message }
  | .ok _ => transcribeAudio outcome

/-! ### Occurrence analysis for the stop-marker truncation of `cleanResponse` -/

/-- Helper: something that starts a `take` of a list also starts the list. -/
theorem isPrefixOf_of_take {m l : List Char} {n : Nat}
    (h : m.isPrefixOf (l.take n) = true) : m.isPrefixOf l = true := by
  induction m generalizing l n with
  | nil => simp [List.isPrefixOf]
  | cons a as ih =>
    cases l with
    | nil => cases n <;> simp [List.isPrefixOf] at h
    | cons b bs =>
      cases n with
      | zero => simp [List.isPrefixOf] at h
      | succ k =>
        simp only [List.take, List.isPrefixOf, Bool.and_eq_true] at h ⊢
        exact ⟨h.1, ih h.2⟩

/-- Helper: when `firstOccurIdx` finds nothing, the marker starts no tail. -/
theorem firstOccurIdx_none {m l : List Char} (h : firstOccurIdx m l = none) :
    ∀ i, m.isPrefixOf (l.drop i) = false := by
  induction l with
  | nil =>
    intro i
    rw [firstOccurIdx] at h
    split at h
    · exact absurd h (by simp)
    · simpa using Bool.not_eq_true _ |>.mp (by assumption)
  | cons c l ih =>
    intro i
    rw [firstOccurIdx] at h
    split at h
    · exact absurd h (by simp)
    · cases i with
      | zero => simpa using Bool.not_eq_true _ |>.mp (by assumption)
      | succ j =>
        have h2 : firstOccurIdx m l = none := Option.map_eq_none.mp h
        simpa using ih h2 j

/-- Helper: `firstOccurIdx` returns an index where the marker does occur. -/
theorem firstOccurIdx_sound {m l : List Char} {i : Nat}
    (h : firstOccurIdx m l = some i) : m.isPrefixOf (l.drop i) = true := by
  induction l generalizing i with
  | nil =>
    rw [firstOccurIdx] at h
    split at h
    · cases h; simpa using (by assumption : m.isPrefixOf ([] : List Char) = true)
    · cases h
  | cons c l ih =>
    rw [firstOccurIdx] at h
    split at h
    · cases h; simpa using (by assumption : m.isPrefixOf (c :: l) = true)
    · rcases Option.map_eq_some'.mp h with ⟨j, hj, rfl⟩
      simpa using ih hj

/-- Helper: `firstOccurIdx` returns the least occurrence index. -/
theorem firstOccurIdx_min {m l : List Char} {i : Nat}
    (h : firstOccurIdx m l = some i) :
    ∀ j, j < i → m.isPrefixOf (l.drop j) = false := by
  induction l generalizing i with
  | nil =>
    rw [firstOccurIdx] at h
    split at h
    · cases h; intro j hj; omega
    · cases h
  | cons c l ih =>
    rw [firstOccurIdx] at h
    split at h
    · cases h; intro j hj; omega
    · rcases Option.map_eq_some'.mp h with ⟨k, hk, rfl⟩
      intro j hj
      cases j with
      | zero => simpa using Bool.not_eq_true _ |>.mp (by assumption)
      | succ j' => simpa using ih hk j' (by omega)

/-- Helper: occurrence characterised by tails the marker starts. -/
theorem hasOccur_iff {m l : List Char} :
    hasOccur m l = true ↔ ∃ i, m.isPrefixOf (l.drop i) = true := by
  unfold hasOccur
  constructor
  · intro h
    rcases Option.isSome_iff_exists.mp h with ⟨i, hi⟩
    exact ⟨i, firstOccurIdx_sound hi⟩
  · rintro ⟨i, hi⟩
    cases hf : firstOccurIdx m l with
    | some j => simp
    | none => exact absurd hi (by simp [firstOccurIdx_none hf i])

/-- Helper: an occurrence inside a `take` is an occurrence. -/
theorem hasOccur_of_take {m l : List Char} {n : Nat}
    (h : hasOccur m (l.take n) = true) : hasOccur m l = true := by
  rcases hasOccur_iff.mp h with ⟨i, hi⟩
  rw [List.drop_take] at hi
  exact hasOccur_iff.mpr ⟨i, isPrefixOf_of_take hi⟩

/-- Helper: an occurrence inside a `drop` is an occurrence. -/
theorem hasOccur_of_drop {m l : List Char} {n : Nat}
    (h : hasOccur m (l.drop n) = true) : hasOccur m l = true := by
  rcases hasOccur_iff.mp h with ⟨i, hi⟩
  rw [List.drop_drop] at hi
  exact hasOccur_iff.mpr ⟨n + i, hi⟩

/-- Helper: `dropWhile` removes a fixed number of leading elements. -/
theorem dropWhile_eq_drop (p : Char → Bool) (l : List Char) :
    ∃ k, l.dropWhile p = l.drop k := by
  induction l with
  | nil => exact ⟨0, rfl⟩
  | cons c l ih =>
    by_cases hc : p c
    · rcases ih with ⟨k, hk⟩
      exact ⟨k + 1, by simpa [List.dropWhile_cons, hc] using hk⟩
    · exact ⟨0, by simp [List.dropWhile_cons, hc]⟩

/-- Helper: an occurrence surviving `dropWhile` is an occurrence. -/
theorem hasOccur_of_dropWhile {m : List Char} {p : Char → Bool} {l : List Char}
    (h : hasOccur m (l.dropWhile p) = true) : hasOccur m l = true := by
  rcases dropWhile_eq_drop p l with ⟨k, hk⟩
  rw [hk] at h
  exact hasOccur_of_drop h

/-- Helper: an occurrence surviving `trimChars` is an occurrence. -/
theorem hasOccur_of_trim {m l : List Char}
    (h : hasOccur m (trimChars l) = true) : hasOccur m l = true := by
  unfold trimChars at h
  rcases dropWhile_eq_drop isJsWhitespace (l.dropWhile isJsWhitespace).reverse
    with ⟨k, hk⟩
  rw [hk, List.drop_reverse, List.reverse_reverse] at h
  exact hasOccur_of_dropWhile (hasOccur_of_take h)

/-- Helper: cutting at a marker's first occurrence eliminates the marker. -/
theorem hasOccur_cut_self {m l : List Char} (hm : m ≠ []) :
    hasOccur m (cutAtMarker m l) = false := by
  unfold cutAtMarker
  split
  case h_1 i hf =>
    by_contra hcontra
    rw [Bool.not_eq_false] at hcontra
    rcases hasOccur_iff.mp (hasOccur_of_trim hcontra) with ⟨j, hj⟩
    rw [List.drop_take] at hj
    have hji : j < i := by
      by_contra hge
      have hz : i - j = 0 := by omega
      rw [hz, List.take_zero] at hj
      cases m with
      | nil => exact hm rfl
      | cons a as => simp [List.isPrefixOf] at hj
    have hj' := isPrefixOf_of_take hj
    exact absurd hj' (by simp [firstOccurIdx_min hf j hji])
  case h_2 hf =>
    simp [hasOccur, hf]

/-- Helper: cutting at any marker introduces no occurrence of another. -/
theorem hasOccur_of_cut {m m2 l : List Char}
    (h : hasOccur m (cutAtMarker m2 l) = true) : hasOccur m l = true := by
  unfold cutAtMarker at h
  split at h
  · exact hasOccur_of_take (hasOccur_of_trim h)
  · exact h

/-- Helper: absence of a marker is preserved by further cuts. -/
theorem not_occur_cut {m m2 l : List Char}
    (h : hasOccur m l = false) : hasOccur m (cutAtMarker m2 l) = false := by
  cases hh : hasOccur m (cutAtMarker m2 l) with
  | false => rfl
  | true => exact absurd (hasOccur_of_cut hh) (by simp [h])

/-- C8: response cleanup strips a leading `Assistant:` label, trims
whitespace, and truncates at the stop markers: the reference input
`"Assistant: I'm good!\nUser: thanks"` cleans to exactly `"I'm good!"`,
and no stop marker (`<end>`, `User:`, `Human:`) ever occurs in a cleaned
response. -/
theorem cleanResponse_correct :
    cleanResponse ("Assistant: I\x27m good!\nUser: thanks".toList) =
      "I\x27m good!".toList
    ∧ ∀ t : List Char,
        hasOccur ("<end>".toList) (cleanResponse t) = false
        ∧ hasOccur ("User:".toList) (cleanResponse t) = false
        ∧ hasOccur ("Human:".toList) (cleanResponse t) = false := by
  refine ⟨by decide, fun t => ?_⟩
  have hfold : cleanResponse t =
      cutAtMarker ("Human:".toList)
        (cutAtMarker ("User:".toList)
          (cutAtMarker ("<end>".toList)
            (stripAssistantLabel (trimChars t)))) := rfl
  rw [hfold]
  exact ⟨not_occur_cut (not_occur_cut (hasOccur_cut_self (by decide))),
         not_occur_cut (hasOccur_cut_self (by decide)),
         hasOccur_cut_self (by decide)⟩

/-- C7: bounded history retrieval returns at most `MAX_MESSAGES_HISTORY`
(10) messages; under distinct creation timestamps they are in strictly
increasing creation-time order; and they are the most recently created
messages of the conversation (any message of the conversation left out of
the window is no newer than every message in it). -/
theorem recentWindow_bounded_ordered (store : List Message) (cid : String) :
    (getConversationHistory store cid).length ≤ MAX_MESSAGES_HISTORY
    ∧ ((store.map Message.createdAt).Nodup →
        (getConversationHistory store cid).Pairwise
          (fun a b => a.createdAt < b.createdAt))
    ∧ ∀ a ∈ store.filter (fun m => m.conversationId == cid),
        a ∉ getConversationHistory store cid →
        ∀ b ∈ getConversationHistory store cid, a.createdAt ≤ b.createdAt := by
  have hsorted : (List.insertionSort msgGE
      (store.filter (fun m => m.conversationId == cid))).Pairwise msgGE :=
    List.sorted_insertionSort msgGE _
  have hperm := List.perm_insertionSort msgGE
    (store.filter (fun m => m.conversationId == cid))
  refine ⟨?_, ?_, ?_⟩
  · simp [getConversationHistory]
  · intro hnd
    have htake : ((List.insertionSort msgGE
        (store.filter (fun m => m.conversationId == cid))).take
          MAX_MESSAGES_HISTORY).Pairwise msgGE :=
      List.Pairwise.sublist (List.take_sublist _ _) hsorted
    have hle : (getConversationHistory store cid).Pairwise
        (fun a b => a.createdAt ≤ b.createdAt) := by
      unfold getConversationHistory
      exact List.pairwise_reverse.mpr htake
    have hndw : ((getConversationHistory store cid).map
        Message.createdAt).Nodup := by
      have h1 : ((store.filter (fun m => m.conversationId == cid)).map
          Message.createdAt).Nodup :=
        List.Sublist.nodup
          ((List.filter_sublist store).map Message.createdAt) hnd
      have h2 : ((List.insertionSort msgGE
          (store.filter (fun m => m.conversationId == cid))).map
            Message.createdAt).Nodup :=
        ((hperm.map Message.createdAt).symm).nodup h1
      have h3 : (((List.insertionSort msgGE
          (store.filter (fun m => m.conversationId == cid))).take
            MAX_MESSAGES_HISTORY).map Message.createdAt).Nodup :=
        List.Sublist.nodup
          ((List.take_sublist _ _).map Message.createdAt) h2
      unfold getConversationHistory
      rw [List.map_reverse]
      exact List.nodup_reverse.mpr h3
    have hne : (getConversationHistory store cid).Pairwise
        (fun a b => a.createdAt ≠ b.createdAt) :=
      List.pairwise_map.mp hndw
    exact (hle.and hne).imp (fun h => lt_of_le_of_ne h.1 h.2)
  · intro a ha hnotin b hb
    set sorted := List.insertionSort msgGE
      (store.filter (fun m => m.conversationId == cid)) with hs
    have hamem : a ∈ sorted := (hperm.mem_iff).mpr ha
    have hb' : b ∈ sorted.take MAX_MESSAGES_HISTORY := by
      have := hb
      unfold getConversationHistory at this
      exact List.mem_reverse.mp this
    have hna : a ∉ sorted.take MAX_MESSAGES_HISTORY := by
      intro h
      exact hnotin (by unfold getConversationHistory; exact List.mem_reverse.mpr h)
    have hadrop : a ∈ sorted.drop MAX_MESSAGES_HISTORY := by
      have hsplit := List.take_append_drop MAX_MESSAGES_HISTORY sorted
      rw [← hsplit] at hamem
      rcases List.mem_append.mp hamem with h | h
      · exact absurd h hna
      · exact h
    have hpw : (sorted.take MAX_MESSAGES_HISTORY ++
        sorted.drop MAX_MESSAGES_HISTORY).Pairwise msgGE := by
      rw [List.take_append_drop]; exact hsorted
    rcases List.pairwise_append.mp hpw with ⟨-, -, hx⟩
    exact hx b hb' a hadrop

/-- Witness for C7 at a concrete 12-message conversation. -/
theorem recentWindow_bounded_ordered_witness :
    (getConversationHistory
      [⟨"c", "user", "m0", 0⟩, ⟨"c", "assistant", "m1", 1⟩,
       ⟨"c", "user", "m2", 2⟩, ⟨"c", "assistant", "m3", 3⟩,
       ⟨"c", "user", "m4", 4⟩, ⟨"c", "assistant", "m5", 5⟩,
       ⟨"c", "user", "m6", 6⟩, ⟨"c", "assistant", "m7", 7⟩,
       ⟨"c", "user", "m8", 8⟩, ⟨"c", "assistant", "m9", 9⟩,
       ⟨"c", "user", "m10", 10⟩, ⟨"c", "assistant", "m11", 11⟩] "c").length ≤
        MAX_MESSAGES_HISTORY
    ∧ (getConversationHistory
      [⟨"c", "user", "m0", 0⟩, ⟨"c", "assistant", "m1", 1⟩,
       ⟨"c", "user", "m2", 2⟩, ⟨"c", "assistant", "m3", 3⟩,
       ⟨"c", "user", "m4", 4⟩, ⟨"c", "assistant", "m5", 5⟩,
       ⟨"c", "user", "m6", 6⟩, ⟨"c", "assistant", "m7", 7⟩,
       ⟨"c", "user", "m8", 8⟩, ⟨"c", "assistant", "m9", 9⟩,
       ⟨"c", "user", "m10", 10⟩, ⟨"c", "assistant", "m11", 11⟩] "c").Pairwise
        (fun a b => a.createdAt < b.createdAt)
    ∧ (0 : Nat) ≤ Message.createdAt ⟨"c", "user", "m2", 2⟩ := by
  refine ⟨(recentWindow_bounded_ordered _ "c").1,
          (recentWindow_bounded_ordered _ "c").2.1 (by decide), ?_⟩
  exact (recentWindow_bounded_ordered
    [⟨"c", "user", "m0", 0⟩, ⟨"c", "assistant", "m1", 1⟩,
     ⟨"c", "user", "m2", 2⟩, ⟨"c", "assistant", "m3", 3⟩,
     ⟨"c", "user", "m4", 4⟩, ⟨"c", "assistant", "m5", 5⟩,
     ⟨"c", "user", "m6", 6⟩, ⟨"c", "assistant", "m7", 7⟩,
     ⟨"c", "user", "m8", 8⟩, ⟨"c", "assistant", "m9", 9⟩,
     ⟨"c", "user", "m10", 10⟩, ⟨"c", "assistant", "m11", 11⟩] "c").2.2
    ⟨"c", "user", "m0", 0⟩ (by decide) (by decide)
    ⟨"c", "user", "m2", 2⟩ (by decide)

/-- C6 counterexample: a persona with `memoryEnabled = false` still gets the
conversation-history line `User: hi` embedded in its prompt — the flag does
not control history inclusion. -/
theorem memoryDisabled_prompt_still_contains_history :
    hasOccur ("User: hi".toList)
      (generatePrompt [⟨"c1", "user", "hi", 1⟩]
        ⟨"p1", "You are helpful.", none, false, false⟩ "c1"
        "how are you?").toList = true
    ∧ Persona.memoryEnabled ⟨"p1", "You are helpful.", none, false, false⟩ =
        false :=
  ⟨by decide, rfl⟩

/-- C6 amended: for EVERY persona, the assembled prompt factors into an
optional template prefix and a fixed history-bearing core: `memoryEnabled`
controls exactly whether `promptTemplate` (plus a blank line) is prefixed,
while the core — the history block (for the supplied conversation id)
followed by the new user input and the assistant cue — is part of the
prompt regardless of `memoryEnabled`. -/
theorem memoryEnabled_gates_template_only (store : List Message)
    (persona : Persona) (cid input : String) :
    generatePrompt store persona cid input =
      (if persona.memoryEnabled then persona.promptTemplate ++ "\n\n"
       else "") ++
      ("Conversation history:" ++
        historyText
          (if cid ≠ "" then getConversationHistory store cid else []) ++
        "\n\nUser: " ++ input ++ "\nAssistant:") := by
  unfold generatePrompt constructPrompt
  cases hm : persona.memoryEnabled
  · rfl
  · simp only [if_true]
    rw [show ("\n\nConversation history:" : String) =
      "\n\n" ++ "Conversation history:" from rfl]
    simp only [String.append_assoc]

/-- C4 counterexample: a caller-supplied voice id (`"x"`) that is absent
from the store makes resolution fail with the 404 `voiceNotFound` even
though the persona's linked voice `"pv"` exists in the store — resolution
does not fall through past a present-but-unknown explicit id. -/
theorem resolveVoice_no_fallthrough_counterexample :
    resolveVoice [⟨"pv", "prov", false, false⟩] (some "x") (some "pv") none =
      .error .voiceNotFound
    ∧ List.find? (fun v => v.id == "pv")
        ([⟨"pv", "prov", false, false⟩] : List VoiceProfile) =
        some ⟨"pv", "prov", false, false⟩ :=
  ⟨by decide, by decide⟩

/-- C4 amended: resolution picks the FIRST truthy candidate in the order
explicit → persona → preference and looks only that one up (an id missing
from the store is a `voiceNotFound` failure, not a fall-through); with no
truthy candidate the store's default voice is used, and with no default the
resolution fails with `noVoiceAvailable` — exactly `resolveVoiceSpec`. -/
theorem resolveVoice_eq_spec (store : List VoiceProfile)
    (e p pr : Option String) :
    resolveVoice store e p pr = resolveVoiceSpec store e p pr := by
  unfold resolveVoice resolveVoiceSpec
  rcases e with _ | s <;> rcases p with _ | sp <;> rcases pr with _ | spr <;>
    simp [truthy] <;> split_ifs <;> simp_all

/-- C1 failing input: a CallLog already terminal (`completed`, `endTime =
100`, owning conversation `endedAt = 100`) receives a replay of the same
`completed` callback at time 200; the route re-stamps `endTime` to 200 and
re-stamps the conversation's `endedAt` to 200 — the replay is NOT a no-op,
because the route has no already-terminal guard before mutating.  (The
second conjunct records that the re-stamped values differ.) -/
theorem statusCallback_terminal_replay_restamps :
    statusRoutePOST
      { users := [],
        conversations := [⟨"c1", "u1", "p1", some 100⟩],
        callLogs := [⟨1, "u1", some "c1", "CA1", "+15551234567", "outbound",
          "completed", some 100, some 42, none⟩] } 200 true "CA1" "completed"
      (some "42") =
      ({ users := [],
         conversations := [⟨"c1", "u1", "p1", some 200⟩],
         callLogs := [⟨1, "u1", some "c1", "CA1", "+15551234567", "outbound",
           "completed", some 200, some 42, none⟩] }, .received)
    ∧ (some 200 : Option Nat) ≠ some 100 :=
  ⟨by decide, by decide⟩

/-- C2 failing input: the status-callback route performs its mutations
identically for every value of the (never-read) provider-signature validity,
and in particular an unauthenticated callback with an invalid signature
still mutates the CallLog and Conversation state — the route contains no
`validateTwilioRequest` call at all. -/
theorem statusCallback_mutates_without_signature_check :
    (∀ sig1 sig2 : Bool,
      statusRoutePOST
        { users := [],
          conversations := [⟨"c1", "u1", "p1", none⟩],
          callLogs := [⟨1, "u1", some "c1", "CA1", "+15551234567", "outbound",
            "in_progress", none, none, none⟩] } 100 sig1 "CA1" "completed"
        (some "5") =
      statusRoutePOST
        { users := [],
          conversations := [⟨"c1", "u1", "p1", none⟩],
          callLogs := [⟨1, "u1", some "c1", "CA1", "+15551234567", "outbound",
            "in_progress", none, none, none⟩] } 100 sig2 "CA1" "completed"
        (some "5"))
    ∧ (statusRoutePOST
        { users := [],
          conversations := [⟨"c1", "u1", "p1", none⟩],
          callLogs := [⟨1, "u1", some "c1", "CA1", "+15551234567", "outbound",
            "in_progress", none, none, none⟩] } 100 false "CA1" "completed"
        (some "5")).1 ≠
      { users := [],
        conversations := [⟨"c1", "u1", "p1", none⟩],
        callLogs := [⟨1, "u1", some "c1", "CA1", "+15551234567", "outbound",
          "in_progress", none, none, none⟩] } :=
  ⟨fun _ _ => rfl, by decide⟩

/-- C5: for a status callback matching a known CallLog,
`twilioService.updateCallStatus` with a `completed` or `failed` status
stamps `endTime := now` and records the supplied (truthy) duration and
error message; the owning conversation's `endedAt` is stamped exactly when
the status is `completed`; and concretely, a `completed` callback with
`CallDuration = "42"` for an `in_progress` CallLog yields status
`completed`, duration 42, a non-null `endTime` and a non-null conversation
`endedAt` through the status route. -/
theorem updateCallStatus_stamps_on_terminal (db : DB) (now : Nat)
    (sid st : String) (d : Int) (m : String) (cl : CallLog)
    (hfind : db.callLogs.find? (fun c => c.twilioCallSid == sid) = some cl)
    (hst : st = "completed" ∨ st = "failed")
    (hd : d ≠ 0) (hm : m ≠ "") :
    (updateCallStatus db now sid st (some d) (some m)).1.callLogs =
      db.callLogs.map (fun c =>
        if c.id == cl.id then
          { cl with status := st, endTime := some now, duration := some d,
                    errorMessage := some m }
        else c)
    ∧ (st = "failed" →
        (updateCallStatus db now sid st (some d) (some m)).1.conversations =
          db.conversations)
    ∧ (∀ cid, st = "completed" → cl.conversationId = some cid →
        (db.conversations.find? (fun c => c.id == cid)).isSome = true →
        (updateCallStatus db now sid st (some d) (some m)).1.conversations =
          setConversationEnded db.conversations cid now)
    ∧ statusRoutePOST
        { users := [],
          conversations := [⟨"c1", "u1", "p1", none⟩],
          callLogs := [⟨1, "u1", some "c1", "CA1", "+15551234567", "outbound",
            "in_progress", none, none, none⟩] } 500 true "CA1" "completed"
        (some "42") =
      ({ users := [],
         conversations := [⟨"c1", "u1", "p1", some 500⟩],
         callLogs := [⟨1, "u1", some "c1", "CA1", "+15551234567", "outbound",
           "completed", some 500, some 42, none⟩] }, .received) := by
  rcases hst with rfl | rfl
  · refine ⟨?_, ?_, ?_, by decide⟩
    · unfold updateCallStatus
      rw [hfind]
      simp only [hd, hm]
      rcases hcid : cl.conversationId with _ | cid
      · simp [hd, hm]
      · rcases hfound : (db.conversations.find? (fun c => c.id == cid)).isSome with _ | _
        · simp [hd, hm, hfound]
        · simp [hd, hm, hfound]
    · intro h; exact absurd h (by decide)
    · intro cid _ hcid hfound
      unfold updateCallStatus
      rw [hfind]
      simp [hcid, hfound, hd, hm]
  · refine ⟨?_, ?_, ?_, by decide⟩
    · unfold updateCallStatus
      rw [hfind]
      simp [hd, hm]
    · intro _
      unfold updateCallStatus
      rw [hfind]
      simp [hd, hm]
    · intro cid h; exact absurd h (by decide)

/-- Witness for C5 at a concrete store, exercising the `failed` branch. -/
theorem updateCallStatus_stamps_on_terminal_witness :
    (updateCallStatus
      { users := [], conversations := [⟨"c9", "u", "p", none⟩],
        callLogs := [⟨3, "u", some "c9", "CB2", "+15550001111", "outbound",
          "in_progress", none, none, none⟩] }
      77 "CB2" "failed" (some 9) (some "oops")).1.callLogs =
      [⟨3, "u", some "c9", "CB2", "+15550001111", "outbound", "failed",
        some 77, some 9, some "oops"⟩]
    ∧ (updateCallStatus
      { users := [], conversations := [⟨"c9", "u", "p", none⟩],
        callLogs := [⟨3, "u", some "c9", "CB2", "+15550001111", "outbound",
          "in_progress", none, none, none⟩] }
      77 "CB2" "failed" (some 9) (some "oops")).1.conversations =
      [⟨"c9", "u", "p", none⟩] := by
  have h := updateCallStatus_stamps_on_terminal
    { users := [], conversations := [⟨"c9", "u", "p", none⟩],
      callLogs := [⟨3, "u", some "c9", "CB2", "+15550001111", "outbound",
        "in_progress", none, none, none⟩] }
    77 "CB2" "failed" 9 "oops"
    ⟨3, "u", some "c9", "CB2", "+15550001111", "outbound", "in_progress",
      none, none, none⟩
    (by decide) (Or.inr rfl) (by decide) (by decide)
  exact ⟨h.1.trans (by decide), h.2.1 rfl⟩

/-- C3: call-initiation accounting.  (a) A resolved user with
`callCredits ≤ 0` is rejected with the credits-exhausted 403 and the store
is untouched; (b) when the provider's call-creation step fails, no CallLog
is created and no credit is deducted, whatever the request; (c) on provider
success for a resolved, sufficiently-credited user, exactly one `initiated`
CallLog carrying the provider SID is appended and exactly one credit is
decremented — i.e. the decrement happens only after provider confirmation. -/
theorem initiateCall_accounting (db : DB) (session : Option String)
    (req : InitiateRequest) (pr : Except Unit String) (ncid : String)
    (nlid : Nat) :
    (∀ u, truthy req.phoneNumber = true →
      truthy (resolveUserId session req) = true →
      db.users.find?
        (fun x => x.id == (resolveUserId session req).getD "") = some u →
      u.callCredits ≤ 0 →
      initiatePOST db session req pr ncid nlid = (db, .insufficientCredits))
    ∧ (pr = .error () →
        (initiatePOST db session req pr ncid nlid).1.callLogs = db.callLogs
        ∧ (initiatePOST db session req pr ncid nlid).1.users = db.users)
    ∧ (∀ sid u, pr = .ok sid →
        truthy req.phoneNumber = true →
        truthy (resolveUserId session req) = true →
        db.users.find?
          (fun x => x.id == (resolveUserId session req).getD "") = some u →
        0 < u.callCredits →
        (initiatePOST db session req pr ncid nlid).2 = .success sid
        ∧ (initiatePOST db session req pr ncid nlid).1.users =
            db.users.map (fun x =>
              if x.id == (resolveUserId session req).getD "" then
                { x with callCredits := x.callCredits - 1 }
              else x)
        ∧ ∃ newLog,
            (initiatePOST db session req pr ncid nlid).1.callLogs =
              db.callLogs ++ [newLog]
            ∧ newLog.status = "initiated"
            ∧ newLog.twilioCallSid = sid) := by
  refine ⟨?_, ?_, ?_⟩
  · intro u hphone huser hfind hcred
    simp [initiatePOST, hphone, huser, hfind, hcred]
  · rintro rfl
    unfold initiatePOST
    dsimp only
    repeat' split
    all_goals exact ⟨rfl, rfl⟩
  · rintro sid u rfl hphone huser hfind hcred
    have hnot : ¬ u.callCredits ≤ 0 := by omega
    cases hc1 : truthy req.conversationId <;> cases hc2 : truthy req.personaId <;>
      simp [initiatePOST, hphone, huser, hfind, hnot, hc1, hc2]

/-- C9: a call-initiation request with no truthy body `userId` and no
session still places the provider call and returns success, with no credit
check, no credit decrement and no CallLog creation — the store is returned
unchanged in its entirety. -/
theorem initiate_without_user_is_stateless (db : DB) (req : InitiateRequest)
    (ncid : String) (nlid : Nat) (sid : String)
    (hphone : truthy req.phoneNumber = true)
    (huser : truthy req.userId = false) :
    initiatePOST db none req (.ok sid) ncid nlid = (db, .success sid) := by
  have hres : resolveUserId none req = req.userId := by
    unfold resolveUserId
    simp [huser, truthy]
  simp [initiatePOST, hphone, hres, huser]

/-- C10: the transcription operations are total at their boundary (both are
catch-all functions of the provider outcomes, so they return a
`TranscriptionResponse` for every input): on success the `error` field is
absent; on failure the text is empty and the `error` field is present, and
it is non-empty whenever the thrown error's own message is non-empty (JS
`Error` objects always carry a message; the `||` chain falls back to it
when the nested provider message is absent or empty).  The URL variant
reports a failed download with the transport message and otherwise
delegates to `transcribeAudio`. -/
theorem transcription_error_discipline :
    (∀ r : WhisperOk, transcribeAudio (.ok r) =
      { text := r.text, language := r.language, error := none })
    ∧ (∀ e : JsError, (transcribeAudio (.error e)).text = ""
        ∧ ∃ m, (transcribeAudio (.error e)).error = some m
            ∧ (e.message ≠ "" → m ≠ ""))
    ∧ (∀ (e : JsError) (oc : Except JsError WhisperOk),
        transcribeAudioUrl (.error e) oc =
          { text := "", language := none, error := some e.message })
    ∧ (∀ oc : Except JsError WhisperOk,
        transcribeAudioUrl (.ok ()) oc = transcribeAudio oc) := by
  refine ⟨fun r => rfl, fun e => ⟨rfl, ?_⟩, fun e oc => rfl, fun oc => rfl⟩
  rcases hp : e.providerMessage with _ | m
  · exact ⟨e.message, by simp [transcribeAudio, hp], fun h => h⟩
  · by_cases hm : m = ""
    · exact ⟨e.message, by simp [transcribeAudio, hp, hm], fun h => h⟩
    · exact ⟨m, by simp [transcribeAudio, hp, hm], fun _ => hm⟩

/-- Witness for C3 at concrete stores: a 0-credit user is rejected with no
state change; a provider failure leaves CallLogs and users unchanged; a
successful placement returns success for the 1-credit user. -/
theorem initiateCall_accounting_witness :
    initiatePOST { users := [⟨"u1", 0⟩], conversations := [], callLogs := [] }
      none ⟨some "15551234567", some "p1", none, some "u1"⟩ (.ok "CA9")
      "cv1" 7 =
      ({ users := [⟨"u1", 0⟩], conversations := [], callLogs := [] },
        .insufficientCredits)
    ∧ (initiatePOST
        { users := [⟨"u1", 1⟩], conversations := [], callLogs := [] }
        none ⟨some "15551234567", some "p1", none, some "u1"⟩
        (.error ()) "cv1" 7).1.callLogs = []
    ∧ (initiatePOST
        { users := [⟨"u1", 1⟩], conversations := [], callLogs := [] }
        none ⟨some "15551234567", some "p1", none, some "u1"⟩
        (.ok "CA9") "cv1" 7).2 = .success "CA9" := by
  refine ⟨?_, ?_, ?_⟩
  · exact (initiateCall_accounting
      { users := [⟨"u1", 0⟩], conversations := [], callLogs := [] } none
      ⟨some "15551234567", some "p1", none, some "u1"⟩ (.ok "CA9") "cv1"
      7).1 ⟨"u1", 0⟩ (by decide) (by decide) (by decide) (by decide)
  · exact ((initiateCall_accounting
      { users := [⟨"u1", 1⟩], conversations := [], callLogs := [] } none
      ⟨some "15551234567", some "p1", none, some "u1"⟩ (.error ()) "cv1"
      7).2.1 rfl).1
  · exact ((initiateCall_accounting
      { users := [⟨"u1", 1⟩], conversations := [], callLogs := [] } none
      ⟨some "15551234567", some "p1", none, some "u1"⟩ (.ok "CA9") "cv1"
      7).2.2 "CA9" ⟨"u1", 1⟩ rfl (by decide) (by decide) (by decide)
      (by decide)).1

/-- Witness for C9 at a concrete store and anonymous request. -/
theorem initiate_without_user_is_stateless_witness :
    initiatePOST { users := [⟨"u1", 1⟩], conversations := [], callLogs := [] }
      none ⟨some "+15551234567", none, none, none⟩ (.ok "CA9") "cv1" 7 =
      ({ users := [⟨"u1", 1⟩], conversations := [], callLogs := [] },
        .success "CA9") :=
  initiate_without_user_is_stateless
    { users := [⟨"u1", 1⟩], conversations := [], callLogs := [] }
    ⟨some "+15551234567", none, none, none⟩ "cv1" 7 "CA9" (by decide)
    (by decide)

/-- Witness for C10 at concrete provider outcomes. -/
theorem transcription_error_discipline_witness :
    (transcribeAudio (.error ⟨"boom", some ""⟩)).text = ""
    ∧ transcribeAudioUrl (.ok ()) (.ok ⟨"hi", none⟩) =
        transcribeAudio (.ok ⟨"hi", none⟩) :=
  ⟨(transcription_error_discipline.2.1 ⟨"boom", some ""⟩).1,
   transcription_error_discipline.2.2.2 (.ok ⟨"hi", none⟩)⟩
